import Mathlib

/-!
# Verification of the watermelow chat relay core

Shallow embedding of the WebSocket relay core of `src/server.js` and of the
simpler relay in `src/unnamed/part_000`: the connection/room registry
(`clientRoom`, a WeakMap), the fan-out broadcaster (`broadcast`), the message
router (the `ws.on('message')` handler), the close handler, and the liveness
sweep (`setInterval` + `ws.on('pong')`).

Modelling conventions:
* JavaScript values reaching the handlers are modelled by `JVal`
  (strings, numbers, booleans, `null`, `undefined`); property access on a
  missing field yields `JVal.vUndefined`, and JS truthiness is `truthy`.
* `JSON.parse` results are `Option Frame`: `none` when parsing throws (or the
  parse yields a falsy non-object, which the guards treat identically), and
  `some obj` otherwise, with absent fields as `vUndefined`.
* The `clientRoom` WeakMap is an association list `Reg` from a connection
  identity (`Nat`) to the stored room value (a `JVal`, since the code stores
  `obj.room` unvalidated); `WeakMap.get` on an absent key is `vUndefined`.
* `wss.clients` is a `List Conn`.  Each `Conn` carries its `readyState`
  (`1` = OPEN), its `isAlive` liveness flag, and an environment flag
  `sendFails` saying whether `c.send` throws synchronously when invoked on
  this connection.  The source wraps no `send` in a `try`, so a throw inside
  `Set.prototype.forEach` propagates and aborts the remaining iteration;
  `broadcast` therefore returns `Except`, the `error` case carrying the
  deliveries completed before the throw.
* Database calls are modelled by their observable effect records (`Act`),
  tagged with whether the call succeeded; the environment flags `dbMsgFail` /
  `dbProfFail` say whether the corresponding Mongo call rejects.  The
  handlers `await` these calls, so in the returned trace (a `List Act`, in
  execution order, each action recorded when the corresponding source step
  completes) a persistence action precedes any action the source runs after
  the `await`.
-/

namespace Watermelow

/-- A JavaScript runtime value, as far as the relay handlers inspect them. -/
inductive JVal where
  | vStr : String → JVal
  | vNum : Int → JVal
  | vBool : Bool → JVal
  | vNull : JVal
  | vUndefined : JVal
deriving Repr, DecidableEq

/-- JS truthiness, as used by `obj.type || 'message'`, `!!obj.typing`,
`if(room)` and `if(prof && prof.ipHash)`. -/
def truthy : JVal → Bool
  | .vStr s => !(s == "")
  | .vNum n => !(n == 0)
  | .vBool b => b
  | .vNull => false
  | .vUndefined => false

/-- `typeof v === 'string'`. -/
def isStr : JVal → Bool
  | .vStr _ => true
  | _ => false

/-- A parsed inbound JSON frame: the four properties the handlers read.
An absent property reads as `vUndefined`. -/
structure Frame where
  type : JVal
  room : JVal
  payload : JVal
  typing : JVal
deriving Repr, DecidableEq

/-- `obj.type || 'message'` (server.js line 167): the frame's effective type
discriminator — the raw `type` value when truthy, else the string
`"message"`. -/
def effType (v : JVal) : JVal :=
  if truthy v then v else .vStr "message"

/-- One live WebSocket connection as the core sees it: its identity, its
transport `readyState` (`1` = OPEN), the liveness flag `ws.isAlive`, and the
environment's answer to whether `c.send` throws synchronously on it. -/
structure Conn where
  id : Nat
  readyState : Nat
  isAlive : Bool
  sendFails : Bool
deriving Repr, DecidableEq

/-- The `clientRoom` WeakMap: connection identity to the stored room value. -/
abbrev Reg := List (Nat × JVal)

/-- `clientRoom.get(c)`: the stored value, or `undefined` when absent. -/
def wmGet (m : Reg) (k : Nat) : JVal :=
  match m.find? (fun p => p.1 == k) with
  | some p => p.2
  | none => .vUndefined

/-- `clientRoom.set(ws, room)`: overwrite any prior binding for `ws`. -/
def wmSet (m : Reg) (k : Nat) (v : JVal) : Reg :=
  (k, v) :: m.filter (fun p => !(p.1 == k))

/-- An outbound event, by shape (the argument of `JSON.stringify`):
`presence` is `{type:'presence', room, ipHash}` (sent both on join and on
close — no `typing` or `payload` field), `typingMsg` is
`{type:'typing', room, ipHash, typing}`, `chatMsg` is
`{type:'message', room, payload, timestamp}`, and `relayMsg` is the unnamed
relay's `{room, payload}`. -/
inductive OutMsg where
  | presence : JVal → String → OutMsg
  | typingMsg : JVal → String → Bool → OutMsg
  | chatMsg : JVal → JVal → Nat → OutMsg
  | relayMsg : String → String → OutMsg
deriving Repr, DecidableEq

/-- An observable effect of a handler, recorded in execution order:
a `messages.insertOne` (room, payload, success), a `profiles.updateOne`
(ipHash, the `online` value written, success), or a `broadcast` invocation
(room argument, outbound message, identities actually delivered to). -/
inductive Act where
  | dbInsertMessage : JVal → JVal → Bool → Act
  | dbUpsertProfile : String → Bool → Bool → Act
  | bcast : JVal → OutMsg → List Nat → Act
deriving Repr, DecidableEq

/-- `broadcast(room, msg)` of server.js lines 222–228 (the unnamed relay's
fan-out loop, lines 28–35 of part_000, has the same structure): iterate
`wss.clients`; skip a connection whose `readyState !== 1`; skip one whose
registered room is not `===` the room argument; otherwise `c.send(msg)`.
There is no try/catch, so a synchronously-throwing `send` propagates out of
`Set.prototype.forEach` and ends the iteration: `.ok ds` means every send
succeeded and `ds` lists the connections delivered to, `.error ds` means some
send threw and `ds` lists only the deliveries completed before the throw. -/
def broadcast (clients : List Conn) (m : Reg) (room : JVal) :
    Except (List Nat) (List Nat) :=
  match clients with
  | [] => .ok []
  | c :: rest =>
    if c.readyState != 1 then broadcast rest m room
    else if !(wmGet m c.id == room) then broadcast rest m room
    else if c.sendFails then .error []
    else
      match broadcast rest m room with
      | .ok ds => .ok (c.id :: ds)
      | .error ds => .error (c.id :: ds)

/-- The identities a `broadcast(room, msg)` call actually delivers to,
whether or not the fan-out was aborted by a throwing send. -/
def delivered (clients : List Conn) (m : Reg) (room : JVal) : List Nat :=
  match broadcast clients m room with
  | .ok ds => ds
  | .error ds => ds

/-- The `ws.on('message')` handler of server.js lines 163–203, for a frame
arriving on the connection `selfId` whose profile hash is `ipHash`.
`input = none` models `JSON.parse` throwing (line 165: `return`).  The
environment supplies `dbMsgFail` / `dbProfFail` (whether the awaited Mongo
call rejects — both rejections are caught by the source) and `now`
(`new Date()`).  Returns the updated `clientRoom` map and the trace of
effects in execution order; each `await`ed persistence action is recorded,
with its outcome, before the steps the source runs after the `await`. -/
def handleFrame (clients : List Conn) (m : Reg) (ipHash : String) (selfId : Nat)
    (dbMsgFail dbProfFail : Bool) (now : Nat) (input : Option Frame) :
    Reg × List Act :=
  match input with
  | none => (m, [])
  | some obj =>
    let ty := effType obj.type
    if ty == .vStr "join" then
      let room := obj.room
      let m' := wmSet m selfId room
      (m', [.dbUpsertProfile ipHash true (!dbProfFail),
            .bcast room (.presence room ipHash) (delivered clients m' room)])
    else if ty == .vStr "typing" then
      let room := obj.room
      (m, [.bcast room (.typingMsg room ipHash (truthy obj.typing))
            (delivered clients m room)])
    else if ty == .vStr "message" then
      let room := obj.room
      (m, [.dbInsertMessage room obj.payload (!dbMsgFail),
           .bcast room (.chatMsg room obj.payload now) (delivered clients m room)])
    else (m, [])

/-- The `ws.on('close')` handler of server.js lines 205–219: read the closing
connection's room and profile from the maps; if the profile hash is truthy,
`await` marking the profile offline (rejection caught), then, if the stored
room is truthy, broadcast a `presence` event to it.  No map entry is deleted
anywhere in this handler. -/
def closeHandler (clients : List Conn) (m : Reg) (ipHash : String) (selfId : Nat)
    (dbProfFail : Bool) : Reg × List Act :=
  let room := wmGet m selfId
  if ipHash == "" then (m, [])
  else
    let a := Act.dbUpsertProfile ipHash false (!dbProfFail)
    if truthy room then
      (m, [a, .bcast room (.presence room ipHash) (delivered clients m room)])
    else (m, [a])

/-- The `ws.on('message')` handler of the unnamed relay
(src/unnamed/part_000 lines 18–36): drop the frame unless it parsed and both
`obj.room` and `obj.payload` are strings; otherwise record the sender's room
and fan out `{room, payload}` over `wss.clients` (same loop shape as
`broadcast`, with the map updated before the fan-out). -/
def relayHandle (clients : List Conn) (m : Reg) (selfId : Nat)
    (input : Option Frame) : Reg × List Act :=
  match input with
  | none => (m, [])
  | some obj =>
    match obj.room, obj.payload with
    | .vStr room, .vStr payload =>
      let m' := wmSet m selfId (.vStr room)
      (m', [.bcast (.vStr room) (.relayMsg room payload)
             (delivered clients m' (.vStr room))])
    | _, _ => (m, [])

/-- One tick of the liveness sweep (server.js lines 230–236): for each
connection, if `isAlive` is already false, `terminate()` it (it leaves the
client set); otherwise clear the flag and `ping()` it.  `survivors` keeps the
order of `clients`; `terminated` and `probed` list the affected identities. -/
structure SweepResult where
  survivors : List Conn
  terminated : List Nat
  probed : List Nat
deriving Repr, DecidableEq

/-- The body of the 30-second `setInterval` sweep. -/
def sweep (clients : List Conn) : SweepResult :=
  match clients with
  | [] => ⟨[], [], []⟩
  | c :: rest =>
    let r := sweep rest
    if !c.isAlive then ⟨r.survivors, c.id :: r.terminated, r.probed⟩
    else ⟨{ c with isAlive := false } :: r.survivors, r.terminated,
          c.id :: r.probed⟩

/-- The `ws.on('pong')` handler (server.js line 161). -/
def onPong (c : Conn) : Conn :=
  { c with isAlive := true }

/-- The predicate `broadcast` sends on: open and registered to the room. -/
def inRoomOpen (m : Reg) (room : JVal) (c : Conn) : Bool :=
  c.readyState == 1 && wmGet m c.id == room

/-! ## Helper lemmas -/

theorem delivered_nil (m : Reg) (room : JVal) : delivered [] m room = [] := rfl

theorem delivered_cons_skip (c : Conn) (rest : List Conn) (m : Reg) (room : JVal)
    (h : inRoomOpen m room c = false) :
    delivered (c :: rest) m room = delivered rest m room := by
  simp only [inRoomOpen, Bool.and_eq_false_iff] at h
  rcases h with h | h
  · simp [delivered, broadcast, bne, h]
  · cases hr : (c.readyState != 1) <;> simp [delivered, broadcast, hr, h]

theorem delivered_cons_fail (c : Conn) (rest : List Conn) (m : Reg) (room : JVal)
    (h : inRoomOpen m room c = true) (hf : c.sendFails = true) :
    delivered (c :: rest) m room = [] := by
  simp only [inRoomOpen, Bool.and_eq_true, beq_iff_eq] at h
  simp [delivered, broadcast, h.1, h.2, hf]

theorem delivered_cons_send (c : Conn) (rest : List Conn) (m : Reg) (room : JVal)
    (h : inRoomOpen m room c = true) (hf : c.sendFails = false) :
    delivered (c :: rest) m room = c.id :: delivered rest m room := by
  simp only [inRoomOpen, Bool.and_eq_true, beq_iff_eq] at h
  simp only [delivered, broadcast, h.1, h.2, hf]
  cases hb : broadcast rest m room <;> simp [hb]

/-- Unconditional characterization of a fan-out's delivery set: the open
connections registered to the room, in client-set order, up to (and not
including) the first of them whose `send` throws. -/
theorem delivered_eq_takeWhile (clients : List Conn) (m : Reg) (room : JVal) :
    delivered clients m room
      = ((clients.filter (inRoomOpen m room)).takeWhile
          (fun c => !c.sendFails)).map Conn.id := by
  induction clients with
  | nil => rfl
  | cons c rest ih =>
    by_cases hin : inRoomOpen m room c = true
    · by_cases hf : c.sendFails = true
      · rw [delivered_cons_fail c rest m room hin hf]
        simp [List.filter_cons, hin, List.takeWhile, hf]
      · rw [delivered_cons_send c rest m room hin (by simpa using hf)]
        simp [List.filter_cons, hin, List.takeWhile, hf, ih]
    · rw [delivered_cons_skip c rest m room (by simpa using hin)]
      simp [List.filter_cons, hin, ih]

/-- When no send throws, the fan-out delivers to exactly the open
connections registered to the room. -/
theorem delivered_of_no_fail (clients : List Conn) (m : Reg) (room : JVal)
    (h : ∀ c ∈ clients, c.sendFails = false) :
    delivered clients m room = (clients.filter (inRoomOpen m room)).map Conn.id := by
  rw [delivered_eq_takeWhile]
  congr 1
  exact List.takeWhile_eq_self_iff.mpr fun c hc => by
    simp [h c (List.mem_filter.mp hc).1]

theorem mem_delivered_iff (clients : List Conn) (m : Reg) (room : JVal)
    (b : Conn) (hb : b ∈ clients)
    (hnd : (clients.map Conn.id).Nodup)
    (h : ∀ c ∈ clients, c.sendFails = false) :
    b.id ∈ delivered clients m room ↔
      (b.readyState = 1 ∧ wmGet m b.id = room) := by
  rw [delivered_of_no_fail clients m room h]
  constructor
  · intro hmem
    rcases List.mem_map.mp hmem with ⟨c, hc, hcid⟩
    rcases List.mem_filter.mp hc with ⟨hcmem, hcp⟩
    have : c = b := List.inj_on_of_nodup_map hnd hcmem hb hcid
    subst this
    simpa [inRoomOpen] using hcp
  · intro hh
    exact List.mem_map.mpr ⟨b, List.mem_filter.mpr ⟨hb, by simp [inRoomOpen, hh.1, hh.2]⟩, rfl⟩

theorem wmGet_wmSet_self (m : Reg) (k : Nat) (v : JVal) :
    wmGet (wmSet m k v) k = v := by
  simp [wmGet, wmSet, List.find?]

theorem closeHandler_reg (clients : List Conn) (m : Reg) (ipHash : String)
    (selfId : Nat) (f : Bool) :
    (closeHandler clients m ipHash selfId f).1 = m := by
  unfold closeHandler
  by_cases h : ipHash = ""
  · simp [h]
  · by_cases h2 : truthy (wmGet m selfId) = true <;> simp [h, h2]

/-! ## Claims -/

/-- C1 (counterexample): the claim "every malformed frame — non-JSON, missing
`room`, or wrong-typed `payload` — produces zero broadcasts and zero
persistence calls" is false of the server.js handler: the JSON frame
`{"payload":"hi"}`, which has no `room` field, defaults to type `message` and
is persisted (a `messages.insertOne` with `room` undefined) and broadcast. -/
theorem c1_counterexample :
    Act.dbInsertMessage JVal.vUndefined (JVal.vStr "hi") true
      ∈ (handleFrame [] [] "h" 0 false false 0
          (some ⟨JVal.vUndefined, JVal.vUndefined, JVal.vStr "hi", JVal.vUndefined⟩)).2 ∧
    (handleFrame [] [] "h" 0 false false 0
        (some ⟨JVal.vUndefined, JVal.vUndefined, JVal.vStr "hi", JVal.vUndefined⟩)).2
      = [Act.dbInsertMessage JVal.vUndefined (JVal.vStr "hi") true,
         Act.bcast JVal.vUndefined (OutMsg.chatMsg JVal.vUndefined (JVal.vStr "hi") 0) []] := by
  constructor <;> decide

/-- C1 (amended): a frame that fails JSON parsing is dropped silently by both
handlers — no broadcast, no persistence call, no registry update; the unnamed
relay's handler additionally drops any parsed frame whose `room` or `payload`
is not a string.  (server.js's own handler performs no such field validation,
see the counterexample.) -/
theorem c1_amended :
    (∀ (clients : List Conn) (m : Reg) (ipH : String) (s : Nat) (f1 f2 : Bool)
      (now : Nat), handleFrame clients m ipH s f1 f2 now none = (m, [])) ∧
    (∀ (clients : List Conn) (m : Reg) (s : Nat),
      relayHandle clients m s none = (m, [])) ∧
    (∀ (clients : List Conn) (m : Reg) (s : Nat) (obj : Frame),
      isStr obj.room = false ∨ isStr obj.payload = false →
      relayHandle clients m s (some obj) = (m, [])) := by
  refine ⟨fun _ _ _ _ _ _ _ => rfl, fun _ _ _ => rfl, fun clients m s obj h => ?_⟩
  rcases obj with ⟨t, room, payload, ty⟩
  rcases h with h | h
  · cases room <;> cases payload <;> simp_all [isStr, relayHandle]
  · cases room <;> cases payload <;> simp_all [isStr, relayHandle]

/-- C1 (witness for the amended theorem): a frame whose `room` is the number
`3` is dropped by the unnamed relay's handler. -/
theorem c1_witness :
    relayHandle [] [] 0
        (some ⟨JVal.vUndefined, JVal.vNum 3, JVal.vStr "p", JVal.vUndefined⟩) = ([], []) :=
  c1_amended.2.2 [] [] 0 ⟨JVal.vUndefined, JVal.vNum 3, JVal.vStr "p", JVal.vUndefined⟩
    (Or.inl (by decide))

/-- C2 (counterexample): the claim "a send failure is caught per-connection
and every other open connection registered to the room still receives the
message" is false: with three open connections registered to room `"r"` in
client-set order `0, 1, 2`, where only connection `1`'s send throws, the
fan-out aborts inside the iteration — connection `2` is open, registered, and
not the failing peer, yet receives nothing (only `0` was delivered to). -/
theorem c2_counterexample :
    broadcast [⟨0, 1, true, false⟩, ⟨1, 1, true, true⟩, ⟨2, 1, true, false⟩]
        [(0, JVal.vStr "r"), (1, JVal.vStr "r"), (2, JVal.vStr "r")]
        (JVal.vStr "r") = .error [0] ∧
    inRoomOpen [(0, JVal.vStr "r"), (1, JVal.vStr "r"), (2, JVal.vStr "r")]
        (JVal.vStr "r") ⟨2, 1, true, false⟩ = true ∧
    ¬ (2 ∈ delivered [⟨0, 1, true, false⟩, ⟨1, 1, true, true⟩, ⟨2, 1, true, false⟩]
        [(0, JVal.vStr "r"), (1, JVal.vStr "r"), (2, JVal.vStr "r")]
        (JVal.vStr "r")) := by
  refine ⟨rfl, by decide, by decide⟩

/-- C2 (amended): `broadcast` skips closed connections (`readyState ≠ 1`)
without aborting, but a throwing `send` is not caught: the delivery set of a
fan-out is exactly the open connections registered to the room, in client-set
order, up to — and not including — the first of them whose send throws;
every open registered connection after the failing one receives nothing. -/
theorem c2_amended :
    ∀ (clients : List Conn) (m : Reg) (room : JVal),
      delivered clients m room
        = ((clients.filter (inRoomOpen m room)).takeWhile
            (fun c => !c.sendFails)).map Conn.id :=
  delivered_eq_takeWhile

/-- C3: on a `message` frame, failure of the `messages.insertOne` (modelled
by `dbMsgFail = true`; the rejection is caught and only logged) does not
prevent the broadcast: the handler still emits the broadcast action, whose
delivery set is the pure `delivered` fan-out — independent of the database —
and hence reaches every open connection registered to the room. -/
theorem c3_thm (clients : List Conn) (m : Reg) (ipHash : String) (selfId : Nat)
    (dbProfFail : Bool) (now : Nat) (obj : Frame)
    (heff : effType obj.type = .vStr "message")
    (hnf : ∀ c ∈ clients, c.sendFails = false) :
    handleFrame clients m ipHash selfId true dbProfFail now (some obj)
      = (m, [.dbInsertMessage obj.room obj.payload false,
             .bcast obj.room (.chatMsg obj.room obj.payload now)
               (delivered clients m obj.room)]) ∧
    delivered clients m obj.room
      = (clients.filter (inRoomOpen m obj.room)).map Conn.id := by
  constructor
  · simp [handleFrame, heff]
  · exact delivered_of_no_fail clients m obj.room hnf

/-- C3 (witness): one open connection in room `"lobby"`; the insert rejects,
the broadcast still delivers to it. -/
theorem c3_witness :
    handleFrame [⟨0, 1, true, false⟩] [(0, JVal.vStr "lobby")] "h" 0 true false 7
        (some ⟨JVal.vUndefined, JVal.vStr "lobby", JVal.vStr "hi", JVal.vUndefined⟩)
      = ([(0, JVal.vStr "lobby")],
         [.dbInsertMessage (JVal.vStr "lobby") (JVal.vStr "hi") false,
          .bcast (JVal.vStr "lobby")
            (.chatMsg (JVal.vStr "lobby") (JVal.vStr "hi") 7)
            (delivered [⟨0, 1, true, false⟩] [(0, JVal.vStr "lobby")]
              (JVal.vStr "lobby"))]) ∧
    delivered [⟨0, 1, true, false⟩] [(0, JVal.vStr "lobby")] (JVal.vStr "lobby")
      = (([⟨0, 1, true, false⟩] : List Conn).filter
          (inRoomOpen [(0, JVal.vStr "lobby")] (JVal.vStr "lobby"))).map Conn.id :=
  c3_thm [⟨0, 1, true, false⟩] [(0, JVal.vStr "lobby")] "h" 0 false 7
    ⟨JVal.vUndefined, JVal.vStr "lobby", JVal.vStr "hi", JVal.vUndefined⟩
    (by decide) (by decide)

/-- C4 (counterexample): the claim "the broadcast step is not sequenced after
awaiting completion of the persistence call" is false: on a concrete
`message` frame the handler's execution trace is the `messages.insertOne`
action — `await`ed, its outcome already resolved — strictly followed by the
broadcast action: the source broadcasts only after the awaited insert
completes, so the broadcast does wait on storage latency. -/
theorem c4_counterexample :
    handleFrame [] [] "h" 0 false false 5
        (some ⟨JVal.vStr "message", JVal.vStr "r", JVal.vStr "p", JVal.vUndefined⟩)
      = ([], [Act.dbInsertMessage (JVal.vStr "r") (JVal.vStr "p") true,
              Act.bcast (JVal.vStr "r")
                (OutMsg.chatMsg (JVal.vStr "r") (JVal.vStr "p") 5) []]) := by
  decide

/-- C4 (amended): on every `join` and every `message` frame the router first
performs — and awaits — the persistence call (profile upsert, resp. message
insert; its outcome is resolved, and a rejection caught, before anything
else runs), and only then broadcasts: the trace is always the persistence
action strictly followed by the broadcast action.  The persistence *outcome*
does not gate the broadcast, but the broadcast is sequenced after the
persistence call completes. -/
theorem c4_amended (clients : List Conn) (m : Reg) (ipHash : String)
    (selfId : Nat) (f1 f2 : Bool) (now : Nat) (obj : Frame) :
    (effType obj.type = .vStr "join" →
      (handleFrame clients m ipHash selfId f1 f2 now (some obj)).2
        = [.dbUpsertProfile ipHash true (!f2),
           .bcast obj.room (.presence obj.room ipHash)
             (delivered clients (wmSet m selfId obj.room) obj.room)]) ∧
    (effType obj.type = .vStr "message" →
      (handleFrame clients m ipHash selfId f1 f2 now (some obj)).2
        = [.dbInsertMessage obj.room obj.payload (!f1),
           .bcast obj.room (.chatMsg obj.room obj.payload now)
             (delivered clients m obj.room)]) := by
  constructor <;> intro h <;> simp [handleFrame, h]

/-- C4 (witness for the amended theorem): the `message` side at a concrete
frame. -/
theorem c4_witness :
    (handleFrame [] [] "h" 0 false false 5
        (some ⟨JVal.vStr "message", JVal.vStr "r", JVal.vStr "p", JVal.vUndefined⟩)).2
      = [.dbInsertMessage (JVal.vStr "r") (JVal.vStr "p") (!false),
         .bcast (JVal.vStr "r") (.chatMsg (JVal.vStr "r") (JVal.vStr "p") 5)
           (delivered [] [] (JVal.vStr "r"))] :=
  (c4_amended [] [] "h" 0 false false 5
      ⟨JVal.vStr "message", JVal.vStr "r", JVal.vStr "p", JVal.vUndefined⟩).2
    (by decide)

/-- C5: a connection has at most one room at any instant (the registry holds
a single value per identity, and `wmGet` after the join is exactly the new
room); after a `join` carrying a new room, that connection is excluded from
every fan-out to any other room (in particular its previous one) and included
in every fan-out to the new room while it remains open and registered. -/
theorem c5_thm (clients : List Conn) (m : Reg) (ipH : String) (s : Conn)
    (f1 f2 : Bool) (now : Nat) (room1 : JVal) (obj : Frame)
    (hj : effType obj.type = .vStr "join")
    (hs : s ∈ clients) (hopen : s.readyState = 1)
    (hnd : (clients.map Conn.id).Nodup)
    (hnf : ∀ c ∈ clients, c.sendFails = false)
    (hne : room1 ≠ obj.room) :
    (handleFrame clients m ipH s.id f1 f2 now (some obj)).1
        = wmSet m s.id obj.room ∧
    wmGet (handleFrame clients m ipH s.id f1 f2 now (some obj)).1 s.id
        = obj.room ∧
    s.id ∉ delivered clients
        (handleFrame clients m ipH s.id f1 f2 now (some obj)).1 room1 ∧
    s.id ∈ delivered clients
        (handleFrame clients m ipH s.id f1 f2 now (some obj)).1 obj.room := by
  have hm : (handleFrame clients m ipH s.id f1 f2 now (some obj)).1
      = wmSet m s.id obj.room := by
    simp [handleFrame, hj]
  refine ⟨hm, ?_, ?_, ?_⟩
  · rw [hm, wmGet_wmSet_self]
  · rw [hm]
    intro hmem
    have hiff := (mem_delivered_iff clients (wmSet m s.id obj.room) room1 s
      hs hnd hnf).mp hmem
    rw [wmGet_wmSet_self] at hiff
    exact hne hiff.2.symm
  · rw [hm]
    exact (mem_delivered_iff clients (wmSet m s.id obj.room) obj.room s
      hs hnd hnf).mpr ⟨hopen, wmGet_wmSet_self m s.id obj.room⟩

/-- C5 (witness): connection `0`, previously in room `"a"`, joins `"b"`. -/
theorem c5_witness :
    (handleFrame [⟨0, 1, true, false⟩] [(0, JVal.vStr "a")] "h" (Conn.id ⟨0, 1, true, false⟩)
        false false 3 (some ⟨JVal.vStr "join", JVal.vStr "b", JVal.vUndefined, JVal.vUndefined⟩)).1
      = wmSet [(0, JVal.vStr "a")] (Conn.id ⟨0, 1, true, false⟩) (JVal.vStr "b") ∧
    wmGet (handleFrame [⟨0, 1, true, false⟩] [(0, JVal.vStr "a")] "h"
        (Conn.id ⟨0, 1, true, false⟩) false false 3
        (some ⟨JVal.vStr "join", JVal.vStr "b", JVal.vUndefined, JVal.vUndefined⟩)).1
        (Conn.id ⟨0, 1, true, false⟩) = JVal.vStr "b" ∧
    Conn.id ⟨0, 1, true, false⟩ ∉ delivered [⟨0, 1, true, false⟩]
        (handleFrame [⟨0, 1, true, false⟩] [(0, JVal.vStr "a")] "h"
          (Conn.id ⟨0, 1, true, false⟩) false false 3
          (some ⟨JVal.vStr "join", JVal.vStr "b", JVal.vUndefined, JVal.vUndefined⟩)).1
        (JVal.vStr "a") ∧
    Conn.id ⟨0, 1, true, false⟩ ∈ delivered [⟨0, 1, true, false⟩]
        (handleFrame [⟨0, 1, true, false⟩] [(0, JVal.vStr "a")] "h"
          (Conn.id ⟨0, 1, true, false⟩) false false 3
          (some ⟨JVal.vStr "join", JVal.vStr "b", JVal.vUndefined, JVal.vUndefined⟩)).1
        (JVal.vStr "b") :=
  c5_thm [⟨0, 1, true, false⟩] [(0, JVal.vStr "a")] "h" ⟨0, 1, true, false⟩
    false false 3 (JVal.vStr "a")
    ⟨JVal.vStr "join", JVal.vStr "b", JVal.vUndefined, JVal.vUndefined⟩
    (by decide) (by decide) rfl (by decide) (by decide) (by decide)

/-- C6: on a `message` frame to room `obj.room`, the registry is untouched
(closed or not, no connection is removed from it), and a connection `b` in
the client set is delivered to iff it is open (`readyState = 1`) and
registered to that room at broadcast time — never when registered to a
different room, never when closed. -/
theorem c6_thm (clients : List Conn) (m : Reg) (ipH : String) (selfId : Nat)
    (f1 f2 : Bool) (now : Nat) (obj : Frame) (b : Conn)
    (heff : effType obj.type = .vStr "message")
    (hb : b ∈ clients)
    (hnd : (clients.map Conn.id).Nodup)
    (hnf : ∀ c ∈ clients, c.sendFails = false) :
    (handleFrame clients m ipH selfId f1 f2 now (some obj)).1 = m ∧
    (handleFrame clients m ipH selfId f1 f2 now (some obj)).2
      = [.dbInsertMessage obj.room obj.payload (!f1),
         .bcast obj.room (.chatMsg obj.room obj.payload now)
           (delivered clients m obj.room)] ∧
    (b.id ∈ delivered clients m obj.room ↔
      (b.readyState = 1 ∧ wmGet m b.id = obj.room)) :=
  ⟨by simp [handleFrame, heff], by simp [handleFrame, heff],
    mem_delivered_iff clients m obj.room b hb hnd hnf⟩

/-- C6 (witness): sender `0` and peer `1` both open in `"lobby"`; the peer
is delivered to, and would not be if closed or in another room. -/
theorem c6_witness :
    (handleFrame [⟨0, 1, true, false⟩, ⟨1, 1, true, false⟩]
        [(0, JVal.vStr "lobby"), (1, JVal.vStr "lobby")] "h" 0 false false 9
        (some ⟨JVal.vUndefined, JVal.vStr "lobby", JVal.vStr "hi", JVal.vUndefined⟩)).1
      = [(0, JVal.vStr "lobby"), (1, JVal.vStr "lobby")] ∧
    (handleFrame [⟨0, 1, true, false⟩, ⟨1, 1, true, false⟩]
        [(0, JVal.vStr "lobby"), (1, JVal.vStr "lobby")] "h" 0 false false 9
        (some ⟨JVal.vUndefined, JVal.vStr "lobby", JVal.vStr "hi", JVal.vUndefined⟩)).2
      = [.dbInsertMessage (JVal.vStr "lobby") (JVal.vStr "hi") (!false),
         .bcast (JVal.vStr "lobby")
           (.chatMsg (JVal.vStr "lobby") (JVal.vStr "hi") 9)
           (delivered [⟨0, 1, true, false⟩, ⟨1, 1, true, false⟩]
             [(0, JVal.vStr "lobby"), (1, JVal.vStr "lobby")] (JVal.vStr "lobby"))] ∧
    (Conn.id ⟨1, 1, true, false⟩ ∈ delivered [⟨0, 1, true, false⟩, ⟨1, 1, true, false⟩]
        [(0, JVal.vStr "lobby"), (1, JVal.vStr "lobby")] (JVal.vStr "lobby") ↔
      (Conn.readyState ⟨1, 1, true, false⟩ = 1 ∧
        wmGet [(0, JVal.vStr "lobby"), (1, JVal.vStr "lobby")]
          (Conn.id ⟨1, 1, true, false⟩) = JVal.vStr "lobby")) :=
  c6_thm [⟨0, 1, true, false⟩, ⟨1, 1, true, false⟩]
    [(0, JVal.vStr "lobby"), (1, JVal.vStr "lobby")] "h" 0 false false 9
    ⟨JVal.vUndefined, JVal.vStr "lobby", JVal.vStr "hi", JVal.vUndefined⟩
    ⟨1, 1, true, false⟩ (by decide) (by decide) (by decide) (by decide)

/-- C7 (counterexample): the claim's consequence "closed *and removed from
the Registry* before the third probe" is false in its registry half: the
sweep terminates a connection whose flag is down, but neither the sweep nor
the close handling that follows touches the `clientRoom` map — after both,
the terminated connection's entry still maps to its room (the WeakMap entry
is reclaimed only by garbage collection, not by any code in the source). -/
theorem c7_counterexample :
    sweep [⟨0, 1, false, false⟩] = ⟨[], [0], []⟩ ∧
    (closeHandler [] [(0, JVal.vStr "r")] "h" 0 false).1 = [(0, JVal.vStr "r")] ∧
    wmGet (closeHandler [] [(0, JVal.vStr "r")] "h" 0 false).1 0 = JVal.vStr "r" := by
  refine ⟨by decide, rfl, rfl⟩

/-- C7 (amended): at each sweep, a connection whose liveness flag is false is
terminated; otherwise its flag is cleared and it is probed, and a pong sets
the flag back to true.  A connection that never pongs is terminated at the
very next sweep after its (single, unanswered) probe — hence certainly
before a third probe — but termination closes only the transport: no code
removes its registry entry (in particular, close handling leaves the
`clientRoom` map unchanged). -/
theorem c7_amended (c : Conn) (hAlive : c.isAlive = true) :
    sweep [c] = ⟨[{ c with isAlive := false }], [], [c.id]⟩ ∧
    sweep [{ c with isAlive := false }] = ⟨[], [c.id], []⟩ ∧
    onPong { c with isAlive := false } = { c with isAlive := true } ∧
    (∀ (clients : List Conn) (m : Reg) (ipH : String) (sid : Nat) (f : Bool),
      (closeHandler clients m ipH sid f).1 = m) :=
  ⟨by simp [sweep, hAlive], by simp [sweep], rfl, closeHandler_reg⟩

/-- C7 (witness): a live connection is probed at the first sweep and
terminated at the second. -/
theorem c7_witness :
    sweep [⟨3, 1, true, false⟩]
      = ⟨[{ (⟨3, 1, true, false⟩ : Conn) with isAlive := false }], [], [3]⟩ ∧
    sweep [{ (⟨3, 1, true, false⟩ : Conn) with isAlive := false }] = ⟨[], [3], []⟩ ∧
    onPong { (⟨3, 1, true, false⟩ : Conn) with isAlive := false }
      = { (⟨3, 1, true, false⟩ : Conn) with isAlive := true } ∧
    (∀ (clients : List Conn) (m : Reg) (ipH : String) (sid : Nat) (f : Bool),
      (closeHandler clients m ipH sid f).1 = m) :=
  c7_amended ⟨3, 1, true, false⟩ rfl

/-- C8 (counterexample): the claim's final conjunct "the connection's
registry entry is removed (destroyed) as part of close handling" is false:
running the close handler for connection `9` leaves the `clientRoom` map
exactly as it was — `9` still maps to `"lobby"` afterwards.  (No `delete` is
ever issued; the WeakMap association dies only with the key object.) -/
theorem c8_counterexample :
    (closeHandler [⟨7, 1, true, false⟩]
        [(7, JVal.vStr "lobby"), (9, JVal.vStr "lobby")] "hA" 9 false).1
      = [(7, JVal.vStr "lobby"), (9, JVal.vStr "lobby")] ∧
    wmGet (closeHandler [⟨7, 1, true, false⟩]
        [(7, JVal.vStr "lobby"), (9, JVal.vStr "lobby")] "hA" 9 false).1 9
      = JVal.vStr "lobby" :=
  ⟨rfl, rfl⟩

/-- C8 (amended): on close, the handler reads the connection's last known
room and profile hash from the maps, marks the profile offline (awaited,
rejection caught), and — when the stored room is truthy — broadcasts a
departure event of shape `OutMsg.presence` (room and profile hash only, no
`typing`/`payload` field: the very shape the `join` branch broadcasts).  The
registry entry is *not* removed: the map comes back unchanged. -/
theorem c8_amended (clients : List Conn) (m : Reg) (ipHash : String)
    (selfId : Nat) (f : Bool) (hip : ¬ ipHash = "")
    (hroom : truthy (wmGet m selfId) = true) :
    closeHandler clients m ipHash selfId f
      = (m, [.dbUpsertProfile ipHash false (!f),
             .bcast (wmGet m selfId) (.presence (wmGet m selfId) ipHash)
               (delivered clients m (wmGet m selfId))]) := by
  simp [closeHandler, hip, hroom]

/-- C8 (witness): closing connection `4`, registered to `"den"` with profile
hash `"hB"`. -/
theorem c8_witness :
    closeHandler [] [(4, JVal.vStr "den")] "hB" 4 false
      = ([(4, JVal.vStr "den")],
         [.dbUpsertProfile "hB" false (!false),
          .bcast (wmGet [(4, JVal.vStr "den")] 4)
            (.presence (wmGet [(4, JVal.vStr "den")] 4) "hB")
            (delivered [] [(4, JVal.vStr "den")] (wmGet [(4, JVal.vStr "den")] 4))]) :=
  c8_amended [] [(4, JVal.vStr "den")] "hB" 4 false (by decide) (by decide)

/-- C9: the originator is not excluded from its own fan-out: an open
connection registered to the room (first conjunct — the `typing`/`message`
fan-outs, which run on the registry as it stands) or registering by the very
`join` being handled (second conjunct — the fan-out runs on the updated map)
is among the identities its own broadcast delivers to. -/
theorem c9_thm (clients : List Conn) (m : Reg) (room : JVal) (s : Conn)
    (hs : s ∈ clients) (hopen : s.readyState = 1)
    (hnf : ∀ c ∈ clients, c.sendFails = false) :
    (wmGet m s.id = room → s.id ∈ delivered clients m room) ∧
    s.id ∈ delivered clients (wmSet m s.id room) room := by
  constructor
  · intro hreg
    rw [delivered_of_no_fail clients m room hnf]
    exact List.mem_map.mpr
      ⟨s, List.mem_filter.mpr ⟨hs, by simp [inRoomOpen, hopen, hreg]⟩, rfl⟩
  · rw [delivered_of_no_fail clients _ room hnf]
    exact List.mem_map.mpr
      ⟨s, List.mem_filter.mpr
        ⟨hs, by simp [inRoomOpen, hopen, wmGet_wmSet_self]⟩, rfl⟩

/-- C9 (witness): the sole open connection `2` in room `"z"` receives its
own broadcast, both on the standing registry and right after joining. -/
theorem c9_witness :
    (wmGet [(2, JVal.vStr "z")] (Conn.id ⟨2, 1, true, false⟩) = JVal.vStr "z" →
      Conn.id ⟨2, 1, true, false⟩ ∈ delivered [⟨2, 1, true, false⟩]
        [(2, JVal.vStr "z")] (JVal.vStr "z")) ∧
    Conn.id ⟨2, 1, true, false⟩ ∈ delivered [⟨2, 1, true, false⟩]
      (wmSet [(2, JVal.vStr "z")] (Conn.id ⟨2, 1, true, false⟩) (JVal.vStr "z"))
      (JVal.vStr "z") :=
  c9_thm [⟨2, 1, true, false⟩] [(2, JVal.vStr "z")] (JVal.vStr "z")
    ⟨2, 1, true, false⟩ (by decide) (by decide) (by decide)

/-- C10: a frame whose `type` is truthy but none of `"join"`, `"typing"`,
`"message"` is silently ignored — no registry update, no broadcast, no
persistence call; a frame whose `type` is falsy (absent, `null`, `""`, `0`,
`false`) is handled exactly as if its `type` were the string `"message"`. -/
theorem c10_thm (clients : List Conn) (m : Reg) (ipH : String) (selfId : Nat)
    (f1 f2 : Bool) (now : Nat) (obj : Frame) :
    (truthy obj.type = true → obj.type ≠ .vStr "join" →
      obj.type ≠ .vStr "typing" → obj.type ≠ .vStr "message" →
      handleFrame clients m ipH selfId f1 f2 now (some obj) = (m, [])) ∧
    (truthy obj.type = false →
      handleFrame clients m ipH selfId f1 f2 now (some obj)
        = handleFrame clients m ipH selfId f1 f2 now
            (some ⟨.vStr "message", obj.room, obj.payload, obj.typing⟩)) := by
  constructor
  · intro ht h1 h2 h3
    simp [handleFrame, effType, ht, h1, h2, h3]
  · intro ht
    simp [handleFrame, effType, ht]

/-- C10 (witness): a frame typed with the (truthy, unrecognized) number `7`
is ignored. -/
theorem c10_witness :
    handleFrame [] [] "h" 0 false false 0
        (some ⟨JVal.vNum 7, JVal.vStr "r", JVal.vStr "p", JVal.vUndefined⟩) = ([], []) :=
  (c10_thm [] [] "h" 0 false false 0
      ⟨JVal.vNum 7, JVal.vStr "r", JVal.vStr "p", JVal.vUndefined⟩).1
    (by decide) (by decide) (by decide) (by decide)

end Watermelow
